import Mathlib

/-! Keycloak LDAP full-name mapper: translation and validation.

A shallow embedding of `keycloak/ldap_full_name_mapper.go`.

* Go strings are `String`, Go `bool` is `Bool`.
* A Go `map[string][]string` is an association list looked up with `List.lookup`;
  a map literal becomes the list of its entries.
* A Go `error` result is `Option Error` (`none` is the nil error); a nullable pointer
  result is `Option` of the pointed-to record.
* Calls made through the Keycloak client are recorded in a log, so that statements
  about how many remote calls an operation performs can be made.
-/

namespace Keycloak

/-! ## Data model -/

/-- Go error values that can flow through this file: an error built by `fmt.Errorf`
from a message, the error of a boolean parse (it carries the rejected text), and an
error handed back by a remote call. -/
inductive Error where
  | errorf (msg : String)
  | parseBool (value : String)
  | remote (msg : String)
  deriving DecidableEq, Repr

/-- The Go function `fmt.Errorf` applied to a format string without verbs. -/
def fmt.Errorf (msg : String) : Error := Error.errorf msg

/-- The struct `LdapFullNameMapper` (source lines 9-18). -/
structure LdapFullNameMapper where
  Id : String
  Name : String
  RealmId : String
  LdapUserFederationId : String
  LdapFullNameAttribute : String
  ReadOnly : Bool
  WriteOnly : Bool
  deriving DecidableEq, Repr

/-- Modelled from the spec: the struct `component` is declared outside
`ldap_full_name_mapper.go`. The spec's generic wire entity has `id`, `name`,
`providerId`, `providerType`, `parentId` and `config`, a mapping from a key to an
ordered sequence of string values; the field names are those of the struct literal
at source lines 21-38. -/
structure component where
  Id : String
  Name : String
  ProviderId : String
  ProviderType : String
  ParentId : String
  Config : List (String × List String)
  deriving DecidableEq, Repr

/-- Modelled from the spec: the struct `LdapUserFederation` is declared outside
`ldap_full_name_mapper.go`. The spec's parent provider has an `editMode` attribute,
the only field read here (source line 77). -/
structure LdapUserFederation where
  EditMode : String
  deriving DecidableEq, Repr

/-! ## Codec helpers -/

/-- Go's `strconv.FormatBool`: "true" or "false" according to the value. -/
def strconv.FormatBool (b : Bool) : String :=
  if b then "true" else "false"

/-- Modelled from the spec: the method `getConfig` is defined with the component
type, outside `ldap_full_name_mapper.go`. The spec's
`decodeString(values) → values[0] if present else ""`: the first value bound to the
key, and the empty string when the key is absent or bound to the empty sequence. -/
def component.getConfig (c : component) (val : String) : String :=
  match c.Config.lookup val with
  | some (v :: _) => v
  | _ => ""

/-- ASCII lower-casing of a text, letter by letter. -/
def lowerAscii (s : String) : String :=
  String.mk (s.data.map Char.toLower)

/-- Modelled from the spec: the helper `parseBoolAndTreatEmptyStringAsFalse` is
defined outside `ldap_full_name_mapper.go`. The spec's `decodeBool`: `false` without
error for the empty string; otherwise the text is parsed as a boolean and the parse
fails with a parse error if it is not a recognized boolean literal, the recognized
literals being the case-insensitive `true`/`false` family. On failure the boolean
result is Go's zero value `false`. -/
def parseBoolAndTreatEmptyStringAsFalse (b : String) : Bool × Option Error :=
  if b = "" then (false, none)
  else if lowerAscii b = "true" then (true, none)
  else if lowerAscii b = "false" then (false, none)
  else (false, some (Error.parseBool b))

/-! ## Translation between mapper and component -/

/-- Source lines 20-39. -/
def convertFromLdapFullNameMapperToComponent (ldapFullNameMapper : LdapFullNameMapper) :
    component :=
  { Id := ldapFullNameMapper.Id
    Name := ldapFullNameMapper.Name
    ProviderId := "full-name-ldap-mapper"
    ProviderType := "org.keycloak.storage.ldap.mappers.LDAPStorageMapper"
    ParentId := ldapFullNameMapper.LdapUserFederationId
    Config :=
      [ ("ldap.full.name.attribute", [ldapFullNameMapper.LdapFullNameAttribute]),
        ("read.only", [strconv.FormatBool ldapFullNameMapper.ReadOnly]),
        ("write.only", [strconv.FormatBool ldapFullNameMapper.WriteOnly]) ] }

/-- Source lines 41-62. The result is the pair the Go function returns: the mapper
pointer (`none` is nil) and the error (`none` is nil). -/
def convertFromComponentToLdapFullNameMapper (component : component) (realmId : String) :
    Option LdapFullNameMapper × Option Error :=
  match parseBoolAndTreatEmptyStringAsFalse (component.getConfig "read.only") with
  | (_, some err) => (none, some err)
  | (readOnly, none) =>
    match parseBoolAndTreatEmptyStringAsFalse (component.getConfig "write.only") with
    | (_, some err) => (none, some err)
    | (writeOnly, none) =>
      (some
        { Id := component.Id
          Name := component.Name
          RealmId := realmId
          LdapUserFederationId := component.ParentId
          LdapFullNameAttribute := component.getConfig "ldap.full.name.attribute"
          ReadOnly := readOnly
          WriteOnly := writeOnly },
       none)

/-! ## Vocabulary for statements about decoding -/

/-- The recognized boolean literals of the spec's `decodeBool`: the texts equal to
"true" or to "false" when letter case is ignored. -/
def recognizedBoolLiteral (s : String) : Prop :=
  lowerAscii s = "true" ∨ lowerAscii s = "false"

instance (s : String) : Decidable (recognizedBoolLiteral s) :=
  inferInstanceAs (Decidable (lowerAscii s = "true" ∨ lowerAscii s = "false"))

/-- The first value bound to `key` in the config exists, is not the empty string and
is not a recognized boolean literal. -/
def malformedBoolEntry (c : component) (key : String) : Prop :=
  ∃ v rest, c.Config.lookup key = some (v :: rest) ∧ v ≠ "" ∧ ¬ recognizedBoolLiteral v

/-- The entry for `key` is absent, is the empty sequence, or has the empty string as
its first value. -/
def absentOrEmptyEntry (c : component) (key : String) : Prop :=
  c.Config.lookup key = none ∨ c.Config.lookup key = some []
    ∨ ∃ rest, c.Config.lookup key = some ("" :: rest)

/-- The entry for `key` decodes as a boolean without error. -/
def decodableBoolEntry (c : component) (key : String) : Prop :=
  (parseBoolAndTreatEmptyStringAsFalse (c.getConfig key)).2 = none

instance (c : component) (key : String) : Decidable (decodableBoolEntry c key) :=
  inferInstanceAs (Decidable ((parseBoolAndTreatEmptyStringAsFalse (c.getConfig key)).2 = none))

/-! ## The Keycloak client and its remote calls -/

/-- The Go `context.Context` handed to every client method; it is passed through to
the transport untouched, so only its identity matters. -/
structure Context where
  id : Nat
  deriving DecidableEq, Repr

/-- One call made through the Keycloak client, with its arguments. -/
inductive Call where
  | GetLdapUserFederation (ctx : Context) (realmId id : String)
  | post (ctx : Context) (path : String) (body : component)
  | get (ctx : Context) (path : String)
  | put (ctx : Context) (path : String) (body : component)
  | DeleteComponent (ctx : Context) (realmId id : String)
  deriving DecidableEq, Repr

/-- Modelled from the spec: the type `KeycloakClient` and its methods
`GetLdapUserFederation`, `post`, `get`, `put` and `DeleteComponent` are defined
outside `ldap_full_name_mapper.go`. The client is the remote system as seen from
this file: for each method, the answer it gives to the arguments it is called with.
The parent lookup is the spec's `get(realmId, parentId) → ParentProvider, error`;
`post` answers with the response body and the location, or an error. -/
structure KeycloakClient where
  ldapUserFederationReply : Context → String → String → Except Error LdapUserFederation
  postReply : Context → String → component → Except Error (String × String)
  getReply : Context → String → Except Error component
  putReply : Context → String → component → Option Error
  deleteComponentReply : Context → String → String → Option Error

/-- A computation that may call the client: it extends the log of calls made so far
and yields a value. -/
def Remote (α : Type) : Type := List Call → α × List Call

instance : Monad Remote where
  pure a := fun log => (a, log)
  bind m f := fun log => f (m log).1 (m log).2

/-- Run a computation from the empty log: its value and the calls it made, in order. -/
def Remote.run {α : Type} (m : Remote α) : α × List Call := m []

/-- The method `GetLdapUserFederation` as called at source line 72: the call is
logged and the client's answer returned. -/
def KeycloakClient.GetLdapUserFederation (keycloakClient : KeycloakClient) (ctx : Context)
    (realmId id : String) : Remote (Except Error LdapUserFederation) :=
  fun log => (keycloakClient.ldapUserFederationReply ctx realmId id,
    log ++ [Call.GetLdapUserFederation ctx realmId id])

/-! ## Validation -/

/-- Source lines 65-83. The result is the Go error (`none` is nil). -/
def KeycloakClient.ValidateLdapFullNameMapper (keycloakClient : KeycloakClient)
    (ctx : Context) (mapper : LdapFullNameMapper) : Remote (Option Error) :=
  if mapper.ReadOnly && mapper.WriteOnly then
    pure (some (fmt.Errorf
      "validation error: ldap full name mapper cannot be both read only and write only"))
  else if mapper.WriteOnly then do
    let r ← keycloakClient.GetLdapUserFederation ctx mapper.RealmId mapper.LdapUserFederationId
    match r with
    | .error err => pure (some err)
    | .ok ldapUserFederation =>
      if ldapUserFederation.EditMode != "WRITABLE" then
        pure (some (fmt.Errorf
          "validation error: ldap full name mapper cannot be write only when ldap provider is not writable"))
      else
        pure none
  else
    pure none

/-- A client whose parent lookup always answers with a provider of the given edit
mode and whose other calls succeed; used to run the definitions on concrete inputs. -/
def clientWithEditMode (editMode : String) : KeycloakClient :=
  { ldapUserFederationReply := fun _ _ _ => .ok { EditMode := editMode }
    postReply := fun _ _ _ => .ok ("", "")
    getReply := fun _ _ => .error (Error.remote "404 Not Found")
    putReply := fun _ _ _ => none
    deleteComponentReply := fun _ _ _ => none }

/-- A client whose parent lookup always fails with the given error. -/
def clientWithLookupError (e : Error) : KeycloakClient :=
  { ldapUserFederationReply := fun _ _ _ => .error e
    postReply := fun _ _ _ => .ok ("", "")
    getReply := fun _ _ => .error (Error.remote "404 Not Found")
    putReply := fun _ _ _ => none
    deleteComponentReply := fun _ _ _ => none }

/-! ## Create, read, update, delete -/

/-- The client method `post` as called at source line 86: the call is logged and the
client's answer (response body and location, or an error) returned. -/
def KeycloakClient.post (keycloakClient : KeycloakClient) (ctx : Context) (path : String)
    (body : component) : Remote (Except Error (String × String)) :=
  fun log => (keycloakClient.postReply ctx path body, log ++ [Call.post ctx path body])

/-- The client method `get` as called at source line 99: the call is logged and the
client's answer (the component decoded from the response, or an error) returned. -/
def KeycloakClient.get (keycloakClient : KeycloakClient) (ctx : Context) (path : String) :
    Remote (Except Error component) :=
  fun log => (keycloakClient.getReply ctx path, log ++ [Call.get ctx path])

/-- The client method `put` as called at source line 108: the call is logged and the
client's answer (an error or nil) returned. -/
def KeycloakClient.put (keycloakClient : KeycloakClient) (ctx : Context) (path : String)
    (body : component) : Remote (Option Error) :=
  fun log => (keycloakClient.putReply ctx path body, log ++ [Call.put ctx path body])

/-- The client method `DeleteComponent` as called at source line 112: the call is
logged and the client's answer (an error or nil) returned. -/
def KeycloakClient.DeleteComponent (keycloakClient : KeycloakClient) (ctx : Context)
    (realmId id : String) : Remote (Option Error) :=
  fun log => (keycloakClient.deleteComponentReply ctx realmId id,
    log ++ [Call.DeleteComponent ctx realmId id])

/-- Modelled from the spec: the helper `getIdFromLocationHeader` is defined outside
`ldap_full_name_mapper.go`. The spec's create returns a location reference from which
the new id is extracted; the location addresses the created component by the path
template `realms/{realmId}/components/{id}`, so the id is its last path segment, the
text after the last "/". -/
def getIdFromLocationHeader (locationHeader : String) : String :=
  String.mk ((locationHeader.data.reverse.takeWhile (fun ch => ch != '/')).reverse)

/-- Source lines 85-94. The mapper is passed by pointer and written to at line 91, so
the result holds the mapper as it is after the call, and the Go error. -/
def KeycloakClient.NewLdapFullNameMapper (keycloakClient : KeycloakClient) (ctx : Context)
    (ldapFullNameMapper : LdapFullNameMapper) : Remote (LdapFullNameMapper × Option Error) := do
  let r ← keycloakClient.post ctx ("/realms/" ++ ldapFullNameMapper.RealmId ++ "/components")
    (convertFromLdapFullNameMapperToComponent ldapFullNameMapper)
  match r with
  | .error err => pure (ldapFullNameMapper, some err)
  | .ok (_, location) =>
    pure ({ ldapFullNameMapper with Id := getIdFromLocationHeader location }, none)

/-- Source lines 96-105. The result is the pair the Go function returns. -/
def KeycloakClient.GetLdapFullNameMapper (keycloakClient : KeycloakClient) (ctx : Context)
    (realmId id : String) : Remote (Option LdapFullNameMapper × Option Error) := do
  let r ← keycloakClient.get ctx ("/realms/" ++ realmId ++ "/components/" ++ id)
  match r with
  | .error err => pure (none, some err)
  | .ok component => pure (convertFromComponentToLdapFullNameMapper component realmId)

/-- Source lines 107-109. The mapper is passed by pointer and the body has no
assignment through it, so the mapper after the call is the mapper passed in; the
result holds it together with the Go error. -/
def KeycloakClient.UpdateLdapFullNameMapper (keycloakClient : KeycloakClient) (ctx : Context)
    (ldapFullNameMapper : LdapFullNameMapper) : Remote (LdapFullNameMapper × Option Error) := do
  let err ← keycloakClient.put ctx
    ("/realms/" ++ ldapFullNameMapper.RealmId ++ "/components/" ++ ldapFullNameMapper.Id)
    (convertFromLdapFullNameMapperToComponent ldapFullNameMapper)
  pure (ldapFullNameMapper, err)

/-- Source lines 111-113. -/
def KeycloakClient.DeleteLdapFullNameMapper (keycloakClient : KeycloakClient) (ctx : Context)
    (realmId id : String) : Remote (Option Error) :=
  keycloakClient.DeleteComponent ctx realmId id

/-- Source lines 65-83 with the mapper pointer made explicit: the body has no
assignment through the pointer, so the mapper after the call is the mapper passed in;
the result holds it together with the Go error. -/
def KeycloakClient.ValidateLdapFullNameMapperState (keycloakClient : KeycloakClient)
    (ctx : Context) (mapper : LdapFullNameMapper) : Remote (LdapFullNameMapper × Option Error) := do
  let err ← keycloakClient.ValidateLdapFullNameMapper ctx mapper
  pure (mapper, err)

/-- A client given by its answers to `post`, `get`, `put` and `DeleteComponent`, whose
parent lookup answers with a writable provider; used to run the definitions on
concrete inputs. -/
def clientWithReplies (postR : Except Error (String × String)) (getR : Except Error component)
    (putR deleteR : Option Error) : KeycloakClient :=
  { ldapUserFederationReply := fun _ _ _ => .ok { EditMode := "WRITABLE" }
    postReply := fun _ _ _ => postR
    getReply := fun _ _ => getR
    putReply := fun _ _ _ => putR
    deleteComponentReply := fun _ _ _ => deleteR }

/-- The call is a mutating one: a POST or a PUT. -/
def Call.isMutation : Call → Bool
  | Call.post _ _ _ => true
  | Call.put _ _ _ => true
  | _ => false

/-- The first value bound to `key` in the config, if there is one. -/
def component.firstValue (c : component) (key : String) : Option String :=
  match c.Config.lookup key with
  | some (v :: _) => some v
  | _ => none

/-! ## Helper lemmas -/

theorem parseBool_FormatBool (b : Bool) :
    parseBoolAndTreatEmptyStringAsFalse (strconv.FormatBool b) = (b, none) := by
  cases b <;> decide

theorem getConfig_encoded_readOnly (m : LdapFullNameMapper) :
    (convertFromLdapFullNameMapperToComponent m).getConfig "read.only"
      = strconv.FormatBool m.ReadOnly := by
  simp [component.getConfig, convertFromLdapFullNameMapperToComponent, List.lookup]

theorem getConfig_encoded_writeOnly (m : LdapFullNameMapper) :
    (convertFromLdapFullNameMapperToComponent m).getConfig "write.only"
      = strconv.FormatBool m.WriteOnly := by
  simp [component.getConfig, convertFromLdapFullNameMapperToComponent, List.lookup]

theorem getConfig_encoded_attribute (m : LdapFullNameMapper) :
    (convertFromLdapFullNameMapperToComponent m).getConfig "ldap.full.name.attribute"
      = m.LdapFullNameAttribute := by
  simp [component.getConfig, convertFromLdapFullNameMapperToComponent, List.lookup]

/-! ## Translation: encoding and round trip -/

/-- C1: decoding the component produced by encoding a mapper, with the mapper's own
realm, succeeds (nil error) and gives back a mapper equal to the original in all seven
fields, whatever the strings and booleans of the mapper. -/
theorem roundtrip_convert (m : LdapFullNameMapper) :
    convertFromComponentToLdapFullNameMapper
      (convertFromLdapFullNameMapperToComponent m) m.RealmId = (some m, none) := by
  unfold convertFromComponentToLdapFullNameMapper
  rw [getConfig_encoded_readOnly, getConfig_encoded_writeOnly, getConfig_encoded_attribute,
    parseBool_FormatBool, parseBool_FormatBool]
  rfl

/-- C2: the encoded config has exactly the three keys "ldap.full.name.attribute",
"read.only" and "write.only" (three distinct keys, and looking up any key gives the
binding stated here and nothing for any other key); each is bound to a one-element
sequence: the attribute, and "true" or "false" for each flag. A mapper with attribute
"cn" and both flags false encodes to the config of the spec's scenario. -/
theorem encoded_config (m : LdapFullNameMapper) :
    ((convertFromLdapFullNameMapperToComponent m).Config.map Prod.fst
        = ["ldap.full.name.attribute", "read.only", "write.only"])
    ∧ ((convertFromLdapFullNameMapperToComponent m).Config.map Prod.fst).Nodup
    ∧ (∀ k : String, (convertFromLdapFullNameMapperToComponent m).Config.lookup k
        = if k = "ldap.full.name.attribute" then some [m.LdapFullNameAttribute]
          else if k = "read.only" then some [if m.ReadOnly then "true" else "false"]
          else if k = "write.only" then some [if m.WriteOnly then "true" else "false"]
          else none)
    ∧ (∀ id name realm parent : String,
        (convertFromLdapFullNameMapperToComponent
            ⟨id, name, realm, parent, "cn", false, false⟩).Config
          = [("ldap.full.name.attribute", ["cn"]), ("read.only", ["false"]),
             ("write.only", ["false"])]) := by
  refine ⟨rfl, ?_, ?_, fun _ _ _ _ => rfl⟩
  · show ["ldap.full.name.attribute", "read.only", "write.only"].Nodup
    decide
  intro k
  simp only [convertFromLdapFullNameMapperToComponent, List.lookup, strconv.FormatBool]
  by_cases h1 : k = "ldap.full.name.attribute"
  · subst h1; simp
  · by_cases h2 : k = "read.only"
    · subst h2; simp
    · by_cases h3 : k = "write.only"
      · subst h3; simp
      · have e1 : (k == "ldap.full.name.attribute") = false := by simpa using h1
        have e2 : (k == "read.only") = false := by simpa using h2
        have e3 : (k == "write.only") = false := by simpa using h3
        simp [e1, e2, e3, h1, h2, h3]

/-- C3: the encoded component copies Id and Name, takes its ParentId from
LdapUserFederationId, and carries the two fixed provider constants, whatever the
fields of the mapper. -/
theorem encoded_identity (m : LdapFullNameMapper) :
    (convertFromLdapFullNameMapperToComponent m).Id = m.Id
    ∧ (convertFromLdapFullNameMapperToComponent m).Name = m.Name
    ∧ (convertFromLdapFullNameMapperToComponent m).ParentId = m.LdapUserFederationId
    ∧ (convertFromLdapFullNameMapperToComponent m).ProviderId = "full-name-ldap-mapper"
    ∧ (convertFromLdapFullNameMapperToComponent m).ProviderType
        = "org.keycloak.storage.ldap.mappers.LDAPStorageMapper" :=
  ⟨rfl, rfl, rfl, rfl, rfl⟩

/-! ## Validation -/

/-- C4: a mapper with both flags true fails validation with the "cannot be both read
only and write only" error, and no parent lookup (no call at all) is made, whatever
the client would have answered. -/
theorem validate_both_flags (kc : KeycloakClient) (ctx : Context) (m : LdapFullNameMapper)
    (hr : m.ReadOnly = true) (hw : m.WriteOnly = true) :
    (kc.ValidateLdapFullNameMapper ctx m).run
      = (some (Error.errorf
          "validation error: ldap full name mapper cannot be both read only and write only"),
         []) := by
  simp [KeycloakClient.ValidateLdapFullNameMapper, hr, hw, Remote.run, pure, fmt.Errorf]

theorem validate_both_flags_witness :
    ((clientWithLookupError (Error.remote "connection refused")).ValidateLdapFullNameMapper
        ⟨7⟩ ⟨"", "full-name", "master", "ldap-1", "cn", true, true⟩).run
      = (some (Error.errorf
          "validation error: ldap full name mapper cannot be both read only and write only"),
         [])
    ∧ ((clientWithEditMode "WRITABLE").ValidateLdapFullNameMapper
        ⟨7⟩ ⟨"", "full-name", "master", "ldap-1", "cn", true, true⟩).run
      = (some (Error.errorf
          "validation error: ldap full name mapper cannot be both read only and write only"),
         []) :=
  ⟨validate_both_flags _ _ _ rfl rfl, validate_both_flags _ _ _ rfl rfl⟩

/-- C5: for a write-only (and not read-only) mapper whose parent lookup succeeds with
provider p, validation returns nil when p.EditMode is exactly "WRITABLE" and the
"cannot be write only when ldap provider is not writable" error for every other
EditMode. -/
theorem validate_writable_gate (kc : KeycloakClient) (ctx : Context)
    (m : LdapFullNameMapper) (p : LdapUserFederation)
    (hw : m.WriteOnly = true) (hr : m.ReadOnly = false)
    (hp : kc.ldapUserFederationReply ctx m.RealmId m.LdapUserFederationId = .ok p) :
    ((kc.ValidateLdapFullNameMapper ctx m).run).1
      = if p.EditMode = "WRITABLE" then none
        else some (Error.errorf
          "validation error: ldap full name mapper cannot be write only when ldap provider is not writable") := by
  by_cases h : p.EditMode = "WRITABLE" <;>
    simp [KeycloakClient.ValidateLdapFullNameMapper, hr, hw, Remote.run, pure, bind,
      KeycloakClient.GetLdapUserFederation, hp, h, fmt.Errorf]

theorem validate_writable_gate_witness :
    (((clientWithEditMode "WRITABLE").ValidateLdapFullNameMapper ⟨0⟩
        ⟨"", "full-name", "master", "ldap-1", "cn", false, true⟩).run).1 = none
    ∧ (((clientWithEditMode "READ_ONLY").ValidateLdapFullNameMapper ⟨0⟩
        ⟨"", "full-name", "master", "ldap-1", "cn", false, true⟩).run).1
      = some (Error.errorf
          "validation error: ldap full name mapper cannot be write only when ldap provider is not writable")
    ∧ (((clientWithEditMode "").ValidateLdapFullNameMapper ⟨0⟩
        ⟨"", "full-name", "master", "ldap-1", "cn", false, true⟩).run).1
      = some (Error.errorf
          "validation error: ldap full name mapper cannot be write only when ldap provider is not writable")
    ∧ (((clientWithEditMode "writable").ValidateLdapFullNameMapper ⟨0⟩
        ⟨"", "full-name", "master", "ldap-1", "cn", false, true⟩).run).1
      = some (Error.errorf
          "validation error: ldap full name mapper cannot be write only when ldap provider is not writable") :=
  ⟨validate_writable_gate (clientWithEditMode "WRITABLE") _ _ ⟨"WRITABLE"⟩ rfl rfl rfl,
   validate_writable_gate (clientWithEditMode "READ_ONLY") _ _ ⟨"READ_ONLY"⟩ rfl rfl rfl,
   validate_writable_gate (clientWithEditMode "") _ _ ⟨""⟩ rfl rfl rfl,
   validate_writable_gate (clientWithEditMode "writable") _ _ ⟨"writable"⟩ rfl rfl rfl⟩

/-- C6: for a write-only (and not read-only) mapper, validation makes exactly one call,
the parent lookup with the mapper's RealmId and LdapUserFederationId; and if that
lookup answers with an error e, validation returns exactly e. -/
theorem validate_single_lookup (kc : KeycloakClient) (ctx : Context)
    (m : LdapFullNameMapper) (hw : m.WriteOnly = true) (hr : m.ReadOnly = false) :
    ((kc.ValidateLdapFullNameMapper ctx m).run).2
        = [Call.GetLdapUserFederation ctx m.RealmId m.LdapUserFederationId]
    ∧ ∀ e : Error,
        kc.ldapUserFederationReply ctx m.RealmId m.LdapUserFederationId = .error e →
        ((kc.ValidateLdapFullNameMapper ctx m).run).1 = some e := by
  constructor
  · cases hp : kc.ldapUserFederationReply ctx m.RealmId m.LdapUserFederationId with
    | error e =>
      simp [KeycloakClient.ValidateLdapFullNameMapper, hr, hw, Remote.run, pure, bind,
        KeycloakClient.GetLdapUserFederation, hp]
    | ok p =>
      by_cases h : p.EditMode = "WRITABLE" <;>
        simp [KeycloakClient.ValidateLdapFullNameMapper, hr, hw, Remote.run, pure, bind,
          KeycloakClient.GetLdapUserFederation, hp, h]
  · intro e hp
    simp [KeycloakClient.ValidateLdapFullNameMapper, hr, hw, Remote.run, pure, bind,
      KeycloakClient.GetLdapUserFederation, hp]

theorem validate_single_lookup_witness :
    (((clientWithLookupError (Error.remote "404 Not Found")).ValidateLdapFullNameMapper ⟨3⟩
        ⟨"", "full-name", "master", "ldap-1", "cn", false, true⟩).run).2
      = [Call.GetLdapUserFederation ⟨3⟩ "master" "ldap-1"]
    ∧ (((clientWithLookupError (Error.remote "404 Not Found")).ValidateLdapFullNameMapper ⟨3⟩
        ⟨"", "full-name", "master", "ldap-1", "cn", false, true⟩).run).1
      = some (Error.remote "404 Not Found") :=
  ⟨(validate_single_lookup (clientWithLookupError (Error.remote "404 Not Found")) ⟨3⟩
      ⟨"", "full-name", "master", "ldap-1", "cn", false, true⟩ rfl rfl).1,
   (validate_single_lookup (clientWithLookupError (Error.remote "404 Not Found")) ⟨3⟩
      ⟨"", "full-name", "master", "ldap-1", "cn", false, true⟩ rfl rfl).2 _ rfl⟩

/-- C7: a mapper that is not write-only (read-only or not) passes validation with a
nil error and no parent lookup (no call at all), whatever the client would have
answered. -/
theorem validate_not_write_only (kc : KeycloakClient) (ctx : Context)
    (m : LdapFullNameMapper) (hw : m.WriteOnly = false) :
    (kc.ValidateLdapFullNameMapper ctx m).run = (none, []) := by
  simp [KeycloakClient.ValidateLdapFullNameMapper, hw, Remote.run, pure]

theorem validate_not_write_only_witness :
    ((clientWithLookupError (Error.remote "connection refused")).ValidateLdapFullNameMapper
        ⟨1⟩ ⟨"", "full-name", "master", "ldap-1", "cn", true, false⟩).run = (none, [])
    ∧ ((clientWithEditMode "READ_ONLY").ValidateLdapFullNameMapper
        ⟨1⟩ ⟨"", "full-name", "master", "ldap-1", "cn", false, false⟩).run = (none, []) :=
  ⟨validate_not_write_only _ _ _ rfl, validate_not_write_only _ _ _ rfl⟩

/-! ## Decoding: helper lemmas -/

theorem getConfig_of_lookup_cons (c : component) (key v : String) (rest : List String)
    (h : c.Config.lookup key = some (v :: rest)) : c.getConfig key = v := by
  simp [component.getConfig, h]

theorem getConfig_of_absentOrEmpty (c : component) (key : String)
    (h : absentOrEmptyEntry c key) : c.getConfig key = "" := by
  rcases h with h | h | ⟨rest, h⟩ <;> simp [component.getConfig, h]

theorem getConfig_cases (c : component) (key : String) :
    c.getConfig key = "" ∨ ∃ rest, c.Config.lookup key = some (c.getConfig key :: rest) := by
  unfold component.getConfig
  cases h : c.Config.lookup key with
  | none => exact Or.inl rfl
  | some vs =>
    cases vs with
    | nil => exact Or.inl rfl
    | cons v rest => exact Or.inr ⟨rest, rfl⟩

theorem not_recognized_empty : ¬ recognizedBoolLiteral "" := by decide

theorem parseBool_empty : parseBoolAndTreatEmptyStringAsFalse "" = (false, none) := rfl

theorem parseBool_of_true (s : String) (h : lowerAscii s = "true") :
    parseBoolAndTreatEmptyStringAsFalse s = (true, none) := by
  have hne : s ≠ "" := by
    rintro rfl
    exact absurd h (by decide)
  simp [parseBoolAndTreatEmptyStringAsFalse, hne, h]

theorem parseBool_of_false (s : String) (h : lowerAscii s = "false") :
    parseBoolAndTreatEmptyStringAsFalse s = (false, none) := by
  have hne : s ≠ "" := by
    rintro rfl
    exact absurd h (by decide)
  have hnt : lowerAscii s ≠ "true" := by
    rw [h]; decide
  simp [parseBoolAndTreatEmptyStringAsFalse, hne, h, hnt]

theorem parseBool_error_iff (s : String) :
    (parseBoolAndTreatEmptyStringAsFalse s).2 ≠ none ↔ (s ≠ "" ∧ ¬ recognizedBoolLiteral s) := by
  unfold parseBoolAndTreatEmptyStringAsFalse recognizedBoolLiteral
  by_cases h0 : s = ""
  · simp [h0]
  · by_cases h1 : lowerAscii s = "true"
    · simp [h0, h1]
    · by_cases h2 : lowerAscii s = "false"
      · simp [h0, h1, h2]
      · simp [h0, h1, h2]

theorem parseBool_error_value (s : String)
    (h : (parseBoolAndTreatEmptyStringAsFalse s).2 ≠ none) :
    parseBoolAndTreatEmptyStringAsFalse s = (false, some (Error.parseBool s)) := by
  have hs := (parseBool_error_iff s).1 h
  unfold recognizedBoolLiteral at hs
  simp only [not_or] at hs
  simp [parseBoolAndTreatEmptyStringAsFalse, hs.1, hs.2.1, hs.2.2]

/-- The decoder written out by cases on the two boolean parses. -/
theorem convertFromComponent_eq (c : component) (r : String) :
    convertFromComponentToLdapFullNameMapper c r
      = if (parseBoolAndTreatEmptyStringAsFalse (c.getConfig "read.only")).2 = none then
          if (parseBoolAndTreatEmptyStringAsFalse (c.getConfig "write.only")).2 = none then
            (some
              { Id := c.Id
                Name := c.Name
                RealmId := r
                LdapUserFederationId := c.ParentId
                LdapFullNameAttribute := c.getConfig "ldap.full.name.attribute"
                ReadOnly := (parseBoolAndTreatEmptyStringAsFalse (c.getConfig "read.only")).1
                WriteOnly := (parseBoolAndTreatEmptyStringAsFalse (c.getConfig "write.only")).1 },
             none)
          else (none, (parseBoolAndTreatEmptyStringAsFalse (c.getConfig "write.only")).2)
        else (none, (parseBoolAndTreatEmptyStringAsFalse (c.getConfig "read.only")).2) := by
  unfold convertFromComponentToLdapFullNameMapper
  generalize parseBoolAndTreatEmptyStringAsFalse (c.getConfig "read.only") = p
  generalize parseBoolAndTreatEmptyStringAsFalse (c.getConfig "write.only") = q
  obtain ⟨b1, _ | e1⟩ := p <;> obtain ⟨b2, _ | e2⟩ := q <;> simp

theorem malformedBoolEntry_iff (c : component) (key : String) :
    malformedBoolEntry c key
      ↔ (parseBoolAndTreatEmptyStringAsFalse (c.getConfig key)).2 ≠ none := by
  rw [parseBool_error_iff]
  constructor
  · rintro ⟨v, rest, h, hne, hnr⟩
    rw [getConfig_of_lookup_cons c key v rest h]
    exact ⟨hne, hnr⟩
  · rintro ⟨hne, hnr⟩
    rcases getConfig_cases c key with h | ⟨rest, h⟩
    · exact absurd h hne
    · exact ⟨c.getConfig key, rest, h, hne, hnr⟩

/-! ## Decoding: absent values, errors, letter case -/

/-- C8: if the "read.only" entry is absent, is the empty sequence, or has the empty
string as its first value, and the "write.only" entry decodes without error, then
decoding succeeds (nil error, a mapper is returned) with ReadOnly = false; and the
same with the roles of "read.only"/ReadOnly and "write.only"/WriteOnly exchanged. -/
theorem decode_absent_or_empty (c : component) (r : String) :
    (absentOrEmptyEntry c "read.only" → decodableBoolEntry c "write.only" →
      (convertFromComponentToLdapFullNameMapper c r).2 = none
      ∧ ∃ m, (convertFromComponentToLdapFullNameMapper c r).1 = some m ∧ m.ReadOnly = false)
    ∧ (absentOrEmptyEntry c "write.only" → decodableBoolEntry c "read.only" →
      (convertFromComponentToLdapFullNameMapper c r).2 = none
      ∧ ∃ m, (convertFromComponentToLdapFullNameMapper c r).1 = some m
          ∧ m.WriteOnly = false) := by
  constructor
  · intro ha hd
    have hg := getConfig_of_absentOrEmpty c "read.only" ha
    unfold decodableBoolEntry at hd
    rw [convertFromComponent_eq]
    simp [hg, parseBool_empty, hd]
  · intro ha hd
    have hg := getConfig_of_absentOrEmpty c "write.only" ha
    unfold decodableBoolEntry at hd
    rw [convertFromComponent_eq]
    simp [hg, parseBool_empty, hd]

theorem decode_absent_or_empty_witness :
    ((convertFromComponentToLdapFullNameMapper
        ⟨"id-1", "full-name", "p", "t", "ldap-1", [("write.only", ["true"])]⟩ "master").2 = none
      ∧ ∃ m, (convertFromComponentToLdapFullNameMapper
          ⟨"id-1", "full-name", "p", "t", "ldap-1", [("write.only", ["true"])]⟩ "master").1
            = some m ∧ m.ReadOnly = false)
    ∧ ((convertFromComponentToLdapFullNameMapper
        ⟨"id-1", "full-name", "p", "t", "ldap-1", [("read.only", [])]⟩ "master").2 = none
      ∧ ∃ m, (convertFromComponentToLdapFullNameMapper
          ⟨"id-1", "full-name", "p", "t", "ldap-1", [("read.only", [])]⟩ "master").1
            = some m ∧ m.ReadOnly = false)
    ∧ ((convertFromComponentToLdapFullNameMapper
        ⟨"id-1", "full-name", "p", "t", "ldap-1",
          [("read.only", ["TRUE"]), ("write.only", ["", "true"])]⟩ "master").2 = none
      ∧ ∃ m, (convertFromComponentToLdapFullNameMapper
          ⟨"id-1", "full-name", "p", "t", "ldap-1",
            [("read.only", ["TRUE"]), ("write.only", ["", "true"])]⟩ "master").1
            = some m ∧ m.WriteOnly = false) :=
  ⟨(decode_absent_or_empty
      ⟨"id-1", "full-name", "p", "t", "ldap-1", [("write.only", ["true"])]⟩ "master").1
      (Or.inl rfl) (by decide),
   (decode_absent_or_empty
      ⟨"id-1", "full-name", "p", "t", "ldap-1", [("read.only", [])]⟩ "master").1
      (Or.inr (Or.inl rfl)) (by decide),
   (decode_absent_or_empty
      ⟨"id-1", "full-name", "p", "t", "ldap-1",
        [("read.only", ["TRUE"]), ("write.only", ["", "true"])]⟩ "master").2
      (Or.inr (Or.inr ⟨["true"], rfl⟩)) (by decide)⟩

/-- C9: decoding returns an error if and only if the first value of "read.only" or
the first value of "write.only" is a non-empty text that is not a recognized boolean
literal; with an error no mapper is returned, and without one a mapper is returned.
The error depends only on the first values of the two boolean entries: components
that agree on them give the same error whatever their Id, Name, ParentId, attribute
entry or realm. -/
theorem decode_error_iff (c : component) (r : String) :
    ((convertFromComponentToLdapFullNameMapper c r).2 ≠ none
        ↔ (malformedBoolEntry c "read.only" ∨ malformedBoolEntry c "write.only"))
    ∧ ((convertFromComponentToLdapFullNameMapper c r).2 ≠ none →
        (convertFromComponentToLdapFullNameMapper c r).1 = none)
    ∧ ((convertFromComponentToLdapFullNameMapper c r).2 = none →
        ∃ m, (convertFromComponentToLdapFullNameMapper c r).1 = some m)
    ∧ (∀ (d : component) (q : String),
        d.getConfig "read.only" = c.getConfig "read.only" →
        d.getConfig "write.only" = c.getConfig "write.only" →
        (convertFromComponentToLdapFullNameMapper d q).2
          = (convertFromComponentToLdapFullNameMapper c r).2) := by
  refine ⟨?_, ?_, ?_, ?_⟩
  · rw [malformedBoolEntry_iff, malformedBoolEntry_iff, convertFromComponent_eq]
    by_cases h1 : (parseBoolAndTreatEmptyStringAsFalse (c.getConfig "read.only")).2 = none
    · by_cases h2 : (parseBoolAndTreatEmptyStringAsFalse (c.getConfig "write.only")).2 = none
      · simp [h1, h2]
      · simp [h1, h2]
    · simp [h1]
  · rw [convertFromComponent_eq]
    by_cases h1 : (parseBoolAndTreatEmptyStringAsFalse (c.getConfig "read.only")).2 = none
    · by_cases h2 : (parseBoolAndTreatEmptyStringAsFalse (c.getConfig "write.only")).2 = none
      · simp [h1, h2]
      · simp [h1, h2]
    · simp [h1]
  · rw [convertFromComponent_eq]
    by_cases h1 : (parseBoolAndTreatEmptyStringAsFalse (c.getConfig "read.only")).2 = none
    · by_cases h2 : (parseBoolAndTreatEmptyStringAsFalse (c.getConfig "write.only")).2 = none
      · simp [h1, h2]
      · simp [h1, h2]
    · simp [h1]
  · intro d q gr gw
    rw [convertFromComponent_eq, convertFromComponent_eq, gr, gw]
    by_cases h1 : (parseBoolAndTreatEmptyStringAsFalse (c.getConfig "read.only")).2 = none
    · by_cases h2 : (parseBoolAndTreatEmptyStringAsFalse (c.getConfig "write.only")).2 = none
      · simp [h1, h2]
      · simp [h1, h2]
    · simp [h1]

theorem decode_error_iff_witness :
    (convertFromComponentToLdapFullNameMapper
        ⟨"id-1", "full-name", "p", "t", "ldap-1", [("read.only", ["maybe"])]⟩ "master").2 ≠ none
    ∧ (convertFromComponentToLdapFullNameMapper
        ⟨"id-1", "full-name", "p", "t", "ldap-1", [("read.only", ["maybe"])]⟩ "master").1 = none
    ∧ (∃ m, (convertFromComponentToLdapFullNameMapper
        ⟨"id-1", "full-name", "p", "t", "ldap-1",
          [("ldap.full.name.attribute", ["cn"])]⟩ "master").1 = some m)
    ∧ (convertFromComponentToLdapFullNameMapper
        ⟨"other", "", "", "", "", [("write.only", []), ("read.only", ["maybe", "x"])]⟩ "r2").2
      = (convertFromComponentToLdapFullNameMapper
        ⟨"id-1", "full-name", "p", "t", "ldap-1", [("read.only", ["maybe", "x"])]⟩ "master").2 :=
  ⟨(decode_error_iff
      ⟨"id-1", "full-name", "p", "t", "ldap-1", [("read.only", ["maybe"])]⟩ "master").1.2
      (Or.inl ⟨"maybe", [], rfl, by decide, by decide⟩),
   (decode_error_iff
      ⟨"id-1", "full-name", "p", "t", "ldap-1", [("read.only", ["maybe"])]⟩ "master").2.1
      (by decide),
   (decode_error_iff
      ⟨"id-1", "full-name", "p", "t", "ldap-1",
        [("ldap.full.name.attribute", ["cn"])]⟩ "master").2.2.1 (by decide),
   (decode_error_iff
      ⟨"id-1", "full-name", "p", "t", "ldap-1", [("read.only", ["maybe", "x"])]⟩ "master").2.2.2
      ⟨"other", "", "", "", "", [("write.only", []), ("read.only", ["maybe", "x"])]⟩ "r2"
      (by decide) (by decide)⟩

/-- C10: boolean literals are recognized whatever their letter case. If the
"read.only" entry is the one-element sequence [s] and "write.only" decodes, then
decoding succeeds with ReadOnly = true when s equals "true" ignoring case, and with
ReadOnly = false when s equals "false" ignoring case; likewise for the "write.only"
entry and WriteOnly, when "read.only" decodes. -/
theorem decode_ignores_letter_case (c : component) (r s : String) :
    (lowerAscii s = "true" → c.Config.lookup "read.only" = some [s] →
      decodableBoolEntry c "write.only" →
      (convertFromComponentToLdapFullNameMapper c r).2 = none
      ∧ ∃ m, (convertFromComponentToLdapFullNameMapper c r).1 = some m ∧ m.ReadOnly = true)
    ∧ (lowerAscii s = "false" → c.Config.lookup "read.only" = some [s] →
      decodableBoolEntry c "write.only" →
      (convertFromComponentToLdapFullNameMapper c r).2 = none
      ∧ ∃ m, (convertFromComponentToLdapFullNameMapper c r).1 = some m ∧ m.ReadOnly = false)
    ∧ (lowerAscii s = "true" → c.Config.lookup "write.only" = some [s] →
      decodableBoolEntry c "read.only" →
      (convertFromComponentToLdapFullNameMapper c r).2 = none
      ∧ ∃ m, (convertFromComponentToLdapFullNameMapper c r).1 = some m ∧ m.WriteOnly = true)
    ∧ (lowerAscii s = "false" → c.Config.lookup "write.only" = some [s] →
      decodableBoolEntry c "read.only" →
      (convertFromComponentToLdapFullNameMapper c r).2 = none
      ∧ ∃ m, (convertFromComponentToLdapFullNameMapper c r).1 = some m
          ∧ m.WriteOnly = false) := by
  refine ⟨?_, ?_, ?_, ?_⟩
  · intro hs hl hd
    unfold decodableBoolEntry at hd
    rw [convertFromComponent_eq, getConfig_of_lookup_cons c "read.only" s [] hl,
      parseBool_of_true s hs]
    simp [hd]
  · intro hs hl hd
    unfold decodableBoolEntry at hd
    rw [convertFromComponent_eq, getConfig_of_lookup_cons c "read.only" s [] hl,
      parseBool_of_false s hs]
    simp [hd]
  · intro hs hl hd
    unfold decodableBoolEntry at hd
    rw [convertFromComponent_eq, getConfig_of_lookup_cons c "write.only" s [] hl,
      parseBool_of_true s hs]
    simp [hd]
  · intro hs hl hd
    unfold decodableBoolEntry at hd
    rw [convertFromComponent_eq, getConfig_of_lookup_cons c "write.only" s [] hl,
      parseBool_of_false s hs]
    simp [hd]

theorem decode_ignores_letter_case_witness :
    ((convertFromComponentToLdapFullNameMapper
        ⟨"id-1", "full-name", "p", "t", "ldap-1",
          [("read.only", ["tRuE"]), ("write.only", ["false"])]⟩ "master").2 = none
      ∧ ∃ m, (convertFromComponentToLdapFullNameMapper
          ⟨"id-1", "full-name", "p", "t", "ldap-1",
            [("read.only", ["tRuE"]), ("write.only", ["false"])]⟩ "master").1 = some m
          ∧ m.ReadOnly = true)
    ∧ ((convertFromComponentToLdapFullNameMapper
        ⟨"id-1", "full-name", "p", "t", "ldap-1", [("read.only", ["FALSE"])]⟩ "master").2 = none
      ∧ ∃ m, (convertFromComponentToLdapFullNameMapper
          ⟨"id-1", "full-name", "p", "t", "ldap-1", [("read.only", ["FALSE"])]⟩ "master").1
            = some m ∧ m.ReadOnly = false)
    ∧ ((convertFromComponentToLdapFullNameMapper
        ⟨"id-1", "full-name", "p", "t", "ldap-1", [("write.only", ["TRUE"])]⟩ "master").2 = none
      ∧ ∃ m, (convertFromComponentToLdapFullNameMapper
          ⟨"id-1", "full-name", "p", "t", "ldap-1", [("write.only", ["TRUE"])]⟩ "master").1
            = some m ∧ m.WriteOnly = true)
    ∧ ((convertFromComponentToLdapFullNameMapper
        ⟨"id-1", "full-name", "p", "t", "ldap-1",
          [("read.only", ["True"]), ("write.only", ["False"])]⟩ "master").2 = none
      ∧ ∃ m, (convertFromComponentToLdapFullNameMapper
          ⟨"id-1", "full-name", "p", "t", "ldap-1",
            [("read.only", ["True"]), ("write.only", ["False"])]⟩ "master").1 = some m
          ∧ m.WriteOnly = false) :=
  ⟨(decode_ignores_letter_case
      ⟨"id-1", "full-name", "p", "t", "ldap-1",
        [("read.only", ["tRuE"]), ("write.only", ["false"])]⟩ "master" "tRuE").1
      (by decide) rfl (by decide),
   (decode_ignores_letter_case
      ⟨"id-1", "full-name", "p", "t", "ldap-1", [("read.only", ["FALSE"])]⟩ "master" "FALSE").2.1
      (by decide) rfl (by decide),
   (decode_ignores_letter_case
      ⟨"id-1", "full-name", "p", "t", "ldap-1", [("write.only", ["TRUE"])]⟩ "master" "TRUE").2.2.1
      (by decide) rfl (by decide),
   (decode_ignores_letter_case
      ⟨"id-1", "full-name", "p", "t", "ldap-1",
        [("read.only", ["True"]), ("write.only", ["False"])]⟩ "master" "False").2.2.2
      (by decide) rfl (by decide)⟩

/-! ## Create, update, delete -/

/-- C11 (as stated, refuted): a mapper with both flags true fails validation, yet
create issues its POST and update its PUT for it, and both return nil. -/
theorem create_update_do_not_validate_counterexample :
    (((clientWithEditMode "READ_ONLY").ValidateLdapFullNameMapper ⟨0⟩
        ⟨"id-9", "full-name", "master", "ldap-1", "cn", true, true⟩).run).1
      = some (Error.errorf
          "validation error: ldap full name mapper cannot be both read only and write only")
    ∧ ((clientWithEditMode "READ_ONLY").NewLdapFullNameMapper ⟨0⟩
        ⟨"id-9", "full-name", "master", "ldap-1", "cn", true, true⟩).run
      = ((⟨"", "full-name", "master", "ldap-1", "cn", true, true⟩, none),
         [Call.post ⟨0⟩ "/realms/master/components"
            (convertFromLdapFullNameMapperToComponent
              ⟨"id-9", "full-name", "master", "ldap-1", "cn", true, true⟩)])
    ∧ ((clientWithEditMode "READ_ONLY").UpdateLdapFullNameMapper ⟨0⟩
        ⟨"id-9", "full-name", "master", "ldap-1", "cn", true, true⟩).run
      = ((⟨"id-9", "full-name", "master", "ldap-1", "cn", true, true⟩, none),
         [Call.put ⟨0⟩ "/realms/master/components/id-9"
            (convertFromLdapFullNameMapperToComponent
              ⟨"id-9", "full-name", "master", "ldap-1", "cn", true, true⟩)]) := by
  decide

/-- C11 (amended): validation is a separate operation that create and update do not
run. For every mapper and client: ValidateLdapFullNameMapper makes either no call or
exactly one call, the parent lookup for the mapper's RealmId and
LdapUserFederationId, so it issues no POST and no PUT; NewLdapFullNameMapper issues
exactly its one POST whatever the flags and returns the result of that POST (its
error, or nil when it succeeds); UpdateLdapFullNameMapper issues exactly its one PUT
whatever the flags and returns the result of that PUT. -/
theorem validation_separate_from_mutation (kc : KeycloakClient) (ctx : Context)
    (m : LdapFullNameMapper) :
    (((kc.ValidateLdapFullNameMapper ctx m).run).2 = []
      ∨ ((kc.ValidateLdapFullNameMapper ctx m).run).2
          = [Call.GetLdapUserFederation ctx m.RealmId m.LdapUserFederationId])
    ∧ ((kc.ValidateLdapFullNameMapper ctx m).run).2.filter Call.isMutation = []
    ∧ ((kc.NewLdapFullNameMapper ctx m).run).2
        = [Call.post ctx ("/realms/" ++ m.RealmId ++ "/components")
            (convertFromLdapFullNameMapperToComponent m)]
    ∧ ((kc.NewLdapFullNameMapper ctx m).run).1.2
        = (match kc.postReply ctx ("/realms/" ++ m.RealmId ++ "/components")
              (convertFromLdapFullNameMapperToComponent m) with
            | .error e => some e
            | .ok _ => none)
    ∧ ((kc.UpdateLdapFullNameMapper ctx m).run).2
        = [Call.put ctx ("/realms/" ++ m.RealmId ++ "/components/" ++ m.Id)
            (convertFromLdapFullNameMapperToComponent m)]
    ∧ ((kc.UpdateLdapFullNameMapper ctx m).run).1.2
        = kc.putReply ctx ("/realms/" ++ m.RealmId ++ "/components/" ++ m.Id)
            (convertFromLdapFullNameMapperToComponent m) := by
  have hlog : ((kc.ValidateLdapFullNameMapper ctx m).run).2 = []
      ∨ ((kc.ValidateLdapFullNameMapper ctx m).run).2
          = [Call.GetLdapUserFederation ctx m.RealmId m.LdapUserFederationId] := by
    cases hr : m.ReadOnly <;> cases hw : m.WriteOnly <;>
      cases hp : kc.ldapUserFederationReply ctx m.RealmId m.LdapUserFederationId with
      | error e =>
        simp [KeycloakClient.ValidateLdapFullNameMapper, hr, hw, Remote.run, pure, bind,
          KeycloakClient.GetLdapUserFederation, hp]
      | ok p =>
        by_cases h : p.EditMode = "WRITABLE" <;>
          simp [KeycloakClient.ValidateLdapFullNameMapper, hr, hw, Remote.run, pure, bind,
            KeycloakClient.GetLdapUserFederation, hp, h]
  refine ⟨hlog, ?_, ?_, ?_, ?_, ?_⟩
  · rcases hlog with h | h <;> rw [h] <;> simp [Call.isMutation]
  · cases hp : kc.postReply ctx ("/realms/" ++ m.RealmId ++ "/components")
        (convertFromLdapFullNameMapperToComponent m) <;>
      simp [KeycloakClient.NewLdapFullNameMapper, Remote.run, pure, bind,
        KeycloakClient.post, hp]
  · cases hp : kc.postReply ctx ("/realms/" ++ m.RealmId ++ "/components")
        (convertFromLdapFullNameMapperToComponent m) <;>
      simp [KeycloakClient.NewLdapFullNameMapper, Remote.run, pure, bind,
        KeycloakClient.post, hp]
  · simp [KeycloakClient.UpdateLdapFullNameMapper, Remote.run, pure, bind,
      KeycloakClient.put]
  · simp [KeycloakClient.UpdateLdapFullNameMapper, Remote.run, pure, bind,
      KeycloakClient.put]

/-- C12: if the POST made by create answers with an error e, create returns exactly
e and the mapper after the call equals the mapper before it in every field, Id
included. -/
theorem create_failure_leaves_mapper (kc : KeycloakClient) (ctx : Context)
    (m : LdapFullNameMapper) (e : Error)
    (h : kc.postReply ctx ("/realms/" ++ m.RealmId ++ "/components")
          (convertFromLdapFullNameMapperToComponent m) = .error e) :
    ((kc.NewLdapFullNameMapper ctx m).run).1 = (m, some e) := by
  simp [KeycloakClient.NewLdapFullNameMapper, Remote.run, pure, bind,
    KeycloakClient.post, h]

theorem create_failure_leaves_mapper_witness :
    (((clientWithReplies (.error (Error.remote "409 Conflict")) (.error (Error.remote ""))
          none none).NewLdapFullNameMapper ⟨2⟩
        ⟨"", "full-name", "master", "ldap-1", "cn", false, false⟩).run).1
      = (⟨"", "full-name", "master", "ldap-1", "cn", false, false⟩,
         some (Error.remote "409 Conflict")) :=
  create_failure_leaves_mapper
    (clientWithReplies (.error (Error.remote "409 Conflict")) (.error (Error.remote ""))
      none none) ⟨2⟩ ⟨"", "full-name", "master", "ldap-1", "cn", false, false⟩
    (Error.remote "409 Conflict") rfl

/-- C13: create makes exactly one call, a POST to "/realms/<RealmId>/components" whose
body is the encoding of the mapper as it was before the call (so no get, put or
delete); if the POST succeeds with location L, create returns nil and the mapper
afterwards has Id equal to the id extracted from L and every other field unchanged. -/
theorem create_success (kc : KeycloakClient) (ctx : Context) (m : LdapFullNameMapper) :
    ((kc.NewLdapFullNameMapper ctx m).run).2
        = [Call.post ctx ("/realms/" ++ m.RealmId ++ "/components")
            (convertFromLdapFullNameMapperToComponent m)]
    ∧ ∀ (body L : String),
        kc.postReply ctx ("/realms/" ++ m.RealmId ++ "/components")
          (convertFromLdapFullNameMapperToComponent m) = .ok (body, L) →
        ((kc.NewLdapFullNameMapper ctx m).run).1
          = (⟨getIdFromLocationHeader L, m.Name, m.RealmId, m.LdapUserFederationId,
              m.LdapFullNameAttribute, m.ReadOnly, m.WriteOnly⟩, none) := by
  constructor
  · cases hp : kc.postReply ctx ("/realms/" ++ m.RealmId ++ "/components")
        (convertFromLdapFullNameMapperToComponent m) <;>
      simp [KeycloakClient.NewLdapFullNameMapper, Remote.run, pure, bind,
        KeycloakClient.post, hp]
  · intro body L hp
    simp [KeycloakClient.NewLdapFullNameMapper, Remote.run, pure, bind,
      KeycloakClient.post, hp]

theorem create_success_witness :
    (((clientWithReplies (.ok ("", "https://kc.example/auth/admin/realms/master/components/abc-123"))
          (.error (Error.remote "")) none none).NewLdapFullNameMapper ⟨2⟩
        ⟨"", "full-name", "master", "ldap-1", "cn", false, false⟩).run).2
      = [Call.post ⟨2⟩ "/realms/master/components"
          (convertFromLdapFullNameMapperToComponent
            ⟨"", "full-name", "master", "ldap-1", "cn", false, false⟩)]
    ∧ (((clientWithReplies (.ok ("", "https://kc.example/auth/admin/realms/master/components/abc-123"))
          (.error (Error.remote "")) none none).NewLdapFullNameMapper ⟨2⟩
        ⟨"", "full-name", "master", "ldap-1", "cn", false, false⟩).run).1
      = (⟨"abc-123", "full-name", "master", "ldap-1", "cn", false, false⟩, none) :=
  ⟨(create_success
      (clientWithReplies (.ok ("", "https://kc.example/auth/admin/realms/master/components/abc-123"))
        (.error (Error.remote "")) none none) ⟨2⟩
      ⟨"", "full-name", "master", "ldap-1", "cn", false, false⟩).1,
   (create_success
      (clientWithReplies (.ok ("", "https://kc.example/auth/admin/realms/master/components/abc-123"))
        (.error (Error.remote "")) none none) ⟨2⟩
      ⟨"", "full-name", "master", "ldap-1", "cn", false, false⟩).2
      "" "https://kc.example/auth/admin/realms/master/components/abc-123" rfl⟩

/-- C14: delete is the generic component delete: it makes exactly one call,
DeleteComponent with the same ctx, realmId and id, makes no other call, and returns
that call's answer (nil or the error) unchanged. -/
theorem delete_delegates (kc : KeycloakClient) (ctx : Context) (realmId id : String) :
    kc.DeleteLdapFullNameMapper ctx realmId id = kc.DeleteComponent ctx realmId id
    ∧ (kc.DeleteLdapFullNameMapper ctx realmId id).run
        = (kc.deleteComponentReply ctx realmId id,
           [Call.DeleteComponent ctx realmId id]) := by
  constructor
  · rfl
  · simp [KeycloakClient.DeleteLdapFullNameMapper, KeycloakClient.DeleteComponent, Remote.run]

/-! ## Decoding: realm, attribute, first error, inputs read -/

theorem getConfig_eq_firstValue (c : component) (key : String) :
    c.getConfig key = (c.firstValue key).getD "" := by
  unfold component.getConfig component.firstValue
  cases h : c.Config.lookup key with
  | none => rfl
  | some vs =>
    cases vs with
    | nil => rfl
    | cons v rest => rfl

/-- The decoder on a component whose two boolean entries decode. -/
theorem convertFromComponent_of_decodable (c : component) (r : String)
    (hro : decodableBoolEntry c "read.only") (hwo : decodableBoolEntry c "write.only") :
    convertFromComponentToLdapFullNameMapper c r
      = (some
          { Id := c.Id
            Name := c.Name
            RealmId := r
            LdapUserFederationId := c.ParentId
            LdapFullNameAttribute := c.getConfig "ldap.full.name.attribute"
            ReadOnly := (parseBoolAndTreatEmptyStringAsFalse (c.getConfig "read.only")).1
            WriteOnly := (parseBoolAndTreatEmptyStringAsFalse (c.getConfig "write.only")).1 },
         none) := by
  unfold decodableBoolEntry at hro hwo
  rw [convertFromComponent_eq]
  simp [hro, hwo]

/-- A decode without error has both boolean entries decodable. -/
theorem decodable_of_no_error (c : component) (r : String)
    (h : (convertFromComponentToLdapFullNameMapper c r).2 = none) :
    decodableBoolEntry c "read.only" ∧ decodableBoolEntry c "write.only" := by
  unfold decodableBoolEntry
  rw [convertFromComponent_eq] at h
  by_cases h1 : (parseBoolAndTreatEmptyStringAsFalse (c.getConfig "read.only")).2 = none
  · by_cases h2 : (parseBoolAndTreatEmptyStringAsFalse (c.getConfig "write.only")).2 = none
    · exact ⟨h1, h2⟩
    · simp [h1, h2] at h
  · simp [h1] at h

/-- C15: the realm is not carried on the wire. Two mappers that differ only in
RealmId encode to the same component; and for a component that decodes, the decoded
mapper has RealmId equal to the realm passed in, Id, Name and LdapUserFederationId
taken from the component's Id, Name and ParentId, and decoding with another realm
changes the RealmId field only. -/
theorem realm_not_on_wire (c : component) (r : String) :
    (∀ (m : LdapFullNameMapper) (q : String),
        convertFromLdapFullNameMapperToComponent
            ⟨m.Id, m.Name, q, m.LdapUserFederationId, m.LdapFullNameAttribute,
              m.ReadOnly, m.WriteOnly⟩
          = convertFromLdapFullNameMapperToComponent m)
    ∧ ((convertFromComponentToLdapFullNameMapper c r).2 = none →
        ∃ m, convertFromComponentToLdapFullNameMapper c r = (some m, none)
          ∧ m.RealmId = r ∧ m.Id = c.Id ∧ m.Name = c.Name
          ∧ m.LdapUserFederationId = c.ParentId
          ∧ ∀ q : String, convertFromComponentToLdapFullNameMapper c q
              = (some ⟨m.Id, m.Name, q, m.LdapUserFederationId, m.LdapFullNameAttribute,
                  m.ReadOnly, m.WriteOnly⟩, none)) := by
  refine ⟨fun _ _ => rfl, ?_⟩
  intro h
  obtain ⟨hro, hwo⟩ := decodable_of_no_error c r h
  refine ⟨_, convertFromComponent_of_decodable c r hro hwo, rfl, rfl, rfl, rfl, ?_⟩
  intro q
  exact convertFromComponent_of_decodable c q hro hwo

theorem realm_not_on_wire_witness :
    (convertFromLdapFullNameMapperToComponent
        ⟨"id-1", "full-name", "other-realm", "ldap-1", "cn", true, false⟩
      = convertFromLdapFullNameMapperToComponent
        ⟨"id-1", "full-name", "master", "ldap-1", "cn", true, false⟩)
    ∧ ∃ m, convertFromComponentToLdapFullNameMapper
          ⟨"id-1", "full-name", "p", "t", "ldap-1", [("read.only", ["true"])]⟩ "master"
            = (some m, none)
        ∧ m.RealmId = "master" ∧ m.Id = "id-1" ∧ m.Name = "full-name"
        ∧ m.LdapUserFederationId = "ldap-1"
        ∧ ∀ q : String, convertFromComponentToLdapFullNameMapper
            ⟨"id-1", "full-name", "p", "t", "ldap-1", [("read.only", ["true"])]⟩ q
              = (some ⟨m.Id, m.Name, q, m.LdapUserFederationId, m.LdapFullNameAttribute,
                  m.ReadOnly, m.WriteOnly⟩, none) :=
  ⟨(realm_not_on_wire
      ⟨"id-1", "full-name", "p", "t", "ldap-1", [("read.only", ["true"])]⟩ "master").1
      ⟨"id-1", "full-name", "master", "ldap-1", "cn", true, false⟩ "other-realm",
   (realm_not_on_wire
      ⟨"id-1", "full-name", "p", "t", "ldap-1", [("read.only", ["true"])]⟩ "master").2
      (by decide)⟩

/-- C16: for a component whose boolean entries decode, decoding succeeds and the
LdapFullNameAttribute of the result is the first element of the
"ldap.full.name.attribute" sequence when that sequence is non-empty (later elements
are ignored) and the empty string when the key is absent or bound to the empty
sequence; the attribute entry plays no part in whether decoding succeeds. -/
theorem decode_attribute (c : component) (r : String)
    (hro : decodableBoolEntry c "read.only") (hwo : decodableBoolEntry c "write.only") :
    ∃ m, convertFromComponentToLdapFullNameMapper c r = (some m, none)
      ∧ (∀ (v : String) (rest : List String),
          c.Config.lookup "ldap.full.name.attribute" = some (v :: rest) →
          m.LdapFullNameAttribute = v)
      ∧ (c.Config.lookup "ldap.full.name.attribute" = none
          ∨ c.Config.lookup "ldap.full.name.attribute" = some [] →
          m.LdapFullNameAttribute = "") := by
  refine ⟨_, convertFromComponent_of_decodable c r hro hwo, ?_, ?_⟩
  · intro v rest h
    exact getConfig_of_lookup_cons c _ v rest h
  · intro h
    exact getConfig_of_absentOrEmpty c _ (h.elim Or.inl (fun h2 => Or.inr (Or.inl h2)))

theorem decode_attribute_witness :
    (∃ m, convertFromComponentToLdapFullNameMapper
          ⟨"id-1", "full-name", "p", "t", "ldap-1",
            [("ldap.full.name.attribute", ["cn", "displayName"])]⟩ "master" = (some m, none)
        ∧ m.LdapFullNameAttribute = "cn")
    ∧ (∃ m, convertFromComponentToLdapFullNameMapper
          ⟨"id-1", "full-name", "p", "t", "ldap-1",
            [("ldap.full.name.attribute", [])]⟩ "master" = (some m, none)
        ∧ m.LdapFullNameAttribute = "") :=
  ⟨(decode_attribute
      ⟨"id-1", "full-name", "p", "t", "ldap-1",
        [("ldap.full.name.attribute", ["cn", "displayName"])]⟩ "master"
      (by decide) (by decide)).imp
      (fun _ h => ⟨h.1, h.2.1 "cn" ["displayName"] rfl⟩),
   (decode_attribute
      ⟨"id-1", "full-name", "p", "t", "ldap-1",
        [("ldap.full.name.attribute", [])]⟩ "master"
      (by decide) (by decide)).imp
      (fun _ h => ⟨h.1, h.2.2 (Or.inr rfl)⟩)⟩

/-- C17: validator soundness. If validation returns nil, the two flags are not both
true, and if WriteOnly is true the parent lookup was made for the mapper's RealmId
and LdapUserFederationId and answered with a provider whose EditMode is "WRITABLE".
Validation never modifies the mapper: the mapper after the call is the mapper
passed in, whatever the outcome. -/
theorem validate_sound (kc : KeycloakClient) (ctx : Context) (m : LdapFullNameMapper) :
    (((kc.ValidateLdapFullNameMapper ctx m).run).1 = none →
      ¬ (m.ReadOnly = true ∧ m.WriteOnly = true)
      ∧ (m.WriteOnly = true →
          ((kc.ValidateLdapFullNameMapper ctx m).run).2
            = [Call.GetLdapUserFederation ctx m.RealmId m.LdapUserFederationId]
          ∧ ∃ p, kc.ldapUserFederationReply ctx m.RealmId m.LdapUserFederationId = .ok p
              ∧ p.EditMode = "WRITABLE"))
    ∧ (kc.ValidateLdapFullNameMapperState ctx m).run
        = ((m, ((kc.ValidateLdapFullNameMapper ctx m).run).1),
           ((kc.ValidateLdapFullNameMapper ctx m).run).2) := by
  constructor
  · intro h
    cases hr : m.ReadOnly <;> cases hw : m.WriteOnly
    · simp
    · cases hp : kc.ldapUserFederationReply ctx m.RealmId m.LdapUserFederationId with
      | error e =>
        simp [KeycloakClient.ValidateLdapFullNameMapper, hr, hw, Remote.run, pure, bind,
          KeycloakClient.GetLdapUserFederation, hp] at h
      | ok p =>
        by_cases he : p.EditMode = "WRITABLE"
        · simp [KeycloakClient.ValidateLdapFullNameMapper, hr, hw, Remote.run, pure, bind,
            KeycloakClient.GetLdapUserFederation, hp, he]
        · simp [KeycloakClient.ValidateLdapFullNameMapper, hr, hw, Remote.run, pure, bind,
            KeycloakClient.GetLdapUserFederation, hp, he] at h
    · simp
    · simp [KeycloakClient.ValidateLdapFullNameMapper, hr, hw, Remote.run, pure] at h
  · simp [KeycloakClient.ValidateLdapFullNameMapperState, Remote.run, pure, bind]

theorem validate_sound_witness :
    (¬ ((false = true) ∧ (true = true))
      ∧ (true = true →
          (((clientWithEditMode "WRITABLE").ValidateLdapFullNameMapper ⟨4⟩
              ⟨"id-1", "full-name", "master", "ldap-1", "cn", false, true⟩).run).2
            = [Call.GetLdapUserFederation ⟨4⟩ "master" "ldap-1"]
          ∧ ∃ p, (clientWithEditMode "WRITABLE").ldapUserFederationReply ⟨4⟩ "master" "ldap-1"
                = .ok p ∧ p.EditMode = "WRITABLE"))
    ∧ ((clientWithEditMode "READ_ONLY").ValidateLdapFullNameMapperState ⟨4⟩
          ⟨"id-1", "full-name", "master", "ldap-1", "cn", false, true⟩).run
        = ((⟨"id-1", "full-name", "master", "ldap-1", "cn", false, true⟩,
            some (Error.errorf
              "validation error: ldap full name mapper cannot be write only when ldap provider is not writable")),
           [Call.GetLdapUserFederation ⟨4⟩ "master" "ldap-1"]) :=
  ⟨(validate_sound (clientWithEditMode "WRITABLE") ⟨4⟩
      ⟨"id-1", "full-name", "master", "ldap-1", "cn", false, true⟩).1 (by decide),
   (validate_sound (clientWithEditMode "READ_ONLY") ⟨4⟩
      ⟨"id-1", "full-name", "master", "ldap-1", "cn", false, true⟩).2⟩

/-- C18: the first decode error wins. When the first values of both "read.only" and
"write.only" are malformed, the error returned is the parse error of the "read.only"
value (it carries that value) and no mapper is returned; when "read.only" decodes
and only "write.only" is malformed, the error is the parse error of the "write.only"
value. -/
theorem first_decode_error_wins (c : component) (r : String) :
    (malformedBoolEntry c "read.only" → malformedBoolEntry c "write.only" →
      ∃ v rest, c.Config.lookup "read.only" = some (v :: rest)
        ∧ convertFromComponentToLdapFullNameMapper c r = (none, some (Error.parseBool v)))
    ∧ (decodableBoolEntry c "read.only" → malformedBoolEntry c "write.only" →
      ∃ v rest, c.Config.lookup "write.only" = some (v :: rest)
        ∧ convertFromComponentToLdapFullNameMapper c r = (none, some (Error.parseBool v))) := by
  constructor
  · intro hro _
    have he := (malformedBoolEntry_iff c "read.only").1 hro
    obtain ⟨v, rest, hl, _, _⟩ := hro
    refine ⟨v, rest, hl, ?_⟩
    have hv := parseBool_error_value _ he
    rw [convertFromComponent_eq, hv, getConfig_of_lookup_cons c _ v rest hl]
    simp
  · intro hro hwo
    unfold decodableBoolEntry at hro
    have he := (malformedBoolEntry_iff c "write.only").1 hwo
    obtain ⟨v, rest, hl, _, _⟩ := hwo
    refine ⟨v, rest, hl, ?_⟩
    have hv := parseBool_error_value _ he
    rw [convertFromComponent_eq, hv, getConfig_of_lookup_cons c _ v rest hl]
    simp [hro]

theorem first_decode_error_wins_witness :
    (convertFromComponentToLdapFullNameMapper
        ⟨"id-1", "full-name", "p", "t", "ldap-1",
          [("write.only", ["perhaps"]), ("read.only", ["maybe"])]⟩ "master"
      = (none, some (Error.parseBool "maybe")))
    ∧ (convertFromComponentToLdapFullNameMapper
        ⟨"id-1", "full-name", "p", "t", "ldap-1",
          [("write.only", ["perhaps"]), ("read.only", ["TRUE"])]⟩ "master"
      = (none, some (Error.parseBool "perhaps"))) := by
  constructor
  · obtain ⟨v, rest, hl, h⟩ := (first_decode_error_wins
        ⟨"id-1", "full-name", "p", "t", "ldap-1",
          [("write.only", ["perhaps"]), ("read.only", ["maybe"])]⟩ "master").1
        ⟨"maybe", [], rfl, by decide, by decide⟩
        ⟨"perhaps", [], rfl, by decide, by decide⟩
    have hv : some ["maybe"] = some (v :: rest) := hl
    cases hv
    exact h
  · obtain ⟨v, rest, hl, h⟩ := (first_decode_error_wins
        ⟨"id-1", "full-name", "p", "t", "ldap-1",
          [("write.only", ["perhaps"]), ("read.only", ["TRUE"])]⟩ "master").2
        (by decide)
        ⟨"perhaps", [], rfl, by decide, by decide⟩
    have hv : some ["perhaps"] = some (v :: rest) := hl
    cases hv
    exact h

/-! ## Read and update; what decoding reads -/

/-- C19: read issues exactly one GET to "/realms/<realmId>/components/<id>"; if it
fails with e the result is (nil, e), otherwise the result is the decoding of the
fetched component with the realm passed in. Update issues exactly one PUT to
"/realms/<RealmId>/components/<Id>" with the encoding of the mapper as body, returns
that call's answer unchanged, and the mapper after the call is the mapper before. -/
theorem read_and_update (kc : KeycloakClient) (ctx : Context) (realmId id : String)
    (m : LdapFullNameMapper) :
    ((kc.GetLdapFullNameMapper ctx realmId id).run).2
        = [Call.get ctx ("/realms/" ++ realmId ++ "/components/" ++ id)]
    ∧ (∀ e : Error,
        kc.getReply ctx ("/realms/" ++ realmId ++ "/components/" ++ id) = .error e →
        ((kc.GetLdapFullNameMapper ctx realmId id).run).1 = (none, some e))
    ∧ (∀ fetched : component,
        kc.getReply ctx ("/realms/" ++ realmId ++ "/components/" ++ id) = .ok fetched →
        ((kc.GetLdapFullNameMapper ctx realmId id).run).1
          = convertFromComponentToLdapFullNameMapper fetched realmId)
    ∧ (kc.UpdateLdapFullNameMapper ctx m).run
        = ((m, kc.putReply ctx ("/realms/" ++ m.RealmId ++ "/components/" ++ m.Id)
                (convertFromLdapFullNameMapperToComponent m)),
           [Call.put ctx ("/realms/" ++ m.RealmId ++ "/components/" ++ m.Id)
              (convertFromLdapFullNameMapperToComponent m)]) := by
  refine ⟨?_, ?_, ?_, ?_⟩
  · cases hp : kc.getReply ctx ("/realms/" ++ realmId ++ "/components/" ++ id) <;>
      simp [KeycloakClient.GetLdapFullNameMapper, Remote.run, pure, bind,
        KeycloakClient.get, hp]
  · intro e hp
    simp [KeycloakClient.GetLdapFullNameMapper, Remote.run, pure, bind,
      KeycloakClient.get, hp]
  · intro fetched hp
    simp [KeycloakClient.GetLdapFullNameMapper, Remote.run, pure, bind,
      KeycloakClient.get, hp]
  · simp [KeycloakClient.UpdateLdapFullNameMapper, Remote.run, pure, bind,
      KeycloakClient.put]

theorem read_and_update_witness :
    (((clientWithReplies (.ok ("", "")) (.error (Error.remote "404 Not Found"))
          (some (Error.remote "400 Bad Request")) none).GetLdapFullNameMapper
        ⟨5⟩ "master" "abc-123").run
      = ((none, some (Error.remote "404 Not Found")),
         [Call.get ⟨5⟩ "/realms/master/components/abc-123"]))
    ∧ (((clientWithReplies (.ok ("", ""))
          (.ok ⟨"abc-123", "full-name", "full-name-ldap-mapper", "t", "ldap-1",
            [("ldap.full.name.attribute", ["cn"]), ("read.only", ["true"])]⟩)
          none none).GetLdapFullNameMapper ⟨5⟩ "master" "abc-123").run).1
      = (some ⟨"abc-123", "full-name", "master", "ldap-1", "cn", true, false⟩, none)
    ∧ ((clientWithReplies (.ok ("", "")) (.error (Error.remote "404 Not Found"))
          (some (Error.remote "400 Bad Request")) none).UpdateLdapFullNameMapper ⟨5⟩
        ⟨"abc-123", "full-name", "master", "ldap-1", "cn", false, false⟩).run
      = ((⟨"abc-123", "full-name", "master", "ldap-1", "cn", false, false⟩,
          some (Error.remote "400 Bad Request")),
         [Call.put ⟨5⟩ "/realms/master/components/abc-123"
            (convertFromLdapFullNameMapperToComponent
              ⟨"abc-123", "full-name", "master", "ldap-1", "cn", false, false⟩)]) :=
  ⟨Prod.ext
    ((read_and_update
      (clientWithReplies (.ok ("", "")) (.error (Error.remote "404 Not Found"))
        (some (Error.remote "400 Bad Request")) none) ⟨5⟩ "master" "abc-123"
      ⟨"abc-123", "full-name", "master", "ldap-1", "cn", false, false⟩).2.1
      (Error.remote "404 Not Found") rfl)
    ((read_and_update
      (clientWithReplies (.ok ("", "")) (.error (Error.remote "404 Not Found"))
        (some (Error.remote "400 Bad Request")) none) ⟨5⟩ "master" "abc-123"
      ⟨"abc-123", "full-name", "master", "ldap-1", "cn", false, false⟩).1),
   (read_and_update
      (clientWithReplies (.ok ("", ""))
        (.ok ⟨"abc-123", "full-name", "full-name-ldap-mapper", "t", "ldap-1",
          [("ldap.full.name.attribute", ["cn"]), ("read.only", ["true"])]⟩)
        none none) ⟨5⟩ "master" "abc-123"
      ⟨"abc-123", "full-name", "master", "ldap-1", "cn", false, false⟩).2.2.1 _ rfl,
   (read_and_update
      (clientWithReplies (.ok ("", "")) (.error (Error.remote "404 Not Found"))
        (some (Error.remote "400 Bad Request")) none) ⟨5⟩ "master" "abc-123"
      ⟨"abc-123", "full-name", "master", "ldap-1", "cn", false, false⟩).2.2.2⟩

/-- C20: decoding does not check the component's kind. Two components with the same
Id, Name and ParentId and the same first values for the three keys
"ldap.full.name.attribute", "read.only" and "write.only" decode, with the same realm,
to the same result (the same mapper or the same error), whatever their ProviderId,
ProviderType, other config keys and later elements of the three sequences. -/
theorem decode_reads_only (c d : component) (r : String)
    (hid : d.Id = c.Id) (hname : d.Name = c.Name) (hparent : d.ParentId = c.ParentId)
    (hattr : d.firstValue "ldap.full.name.attribute" = c.firstValue "ldap.full.name.attribute")
    (hro : d.firstValue "read.only" = c.firstValue "read.only")
    (hwo : d.firstValue "write.only" = c.firstValue "write.only") :
    convertFromComponentToLdapFullNameMapper d r
      = convertFromComponentToLdapFullNameMapper c r := by
  have gattr : d.getConfig "ldap.full.name.attribute" = c.getConfig "ldap.full.name.attribute" := by
    rw [getConfig_eq_firstValue, getConfig_eq_firstValue, hattr]
  have gro : d.getConfig "read.only" = c.getConfig "read.only" := by
    rw [getConfig_eq_firstValue, getConfig_eq_firstValue, hro]
  have gwo : d.getConfig "write.only" = c.getConfig "write.only" := by
    rw [getConfig_eq_firstValue, getConfig_eq_firstValue, hwo]
  rw [convertFromComponent_eq, convertFromComponent_eq, hid, hname, hparent, gattr, gro, gwo]

theorem decode_reads_only_witness :
    (convertFromComponentToLdapFullNameMapper
        ⟨"id-1", "full-name", "some-other-provider", "some.other.Type", "ldap-1",
          [("extra.key", ["x"]), ("read.only", ["true", "junk"]),
           ("ldap.full.name.attribute", ["cn", "sn"]), ("write.only", ["false"])]⟩ "master"
      = convertFromComponentToLdapFullNameMapper
        ⟨"id-1", "full-name", "full-name-ldap-mapper",
          "org.keycloak.storage.ldap.mappers.LDAPStorageMapper", "ldap-1",
          [("ldap.full.name.attribute", ["cn"]), ("read.only", ["true"]),
           ("write.only", ["false"])]⟩ "master")
    ∧ (convertFromComponentToLdapFullNameMapper
        ⟨"id-1", "full-name", "some-other-provider", "some.other.Type", "ldap-1",
          [("read.only", ["maybe", "true"])]⟩ "master"
      = convertFromComponentToLdapFullNameMapper
        ⟨"id-1", "full-name", "full-name-ldap-mapper",
          "org.keycloak.storage.ldap.mappers.LDAPStorageMapper", "ldap-1",
          [("read.only", ["maybe"])]⟩ "master") :=
  ⟨decode_reads_only _ _ "master" rfl rfl rfl rfl rfl rfl,
   decode_reads_only _ _ "master" rfl rfl rfl rfl rfl rfl⟩

end Keycloak
